import Mathlib

/-!
Shallow embedding of the securellm-bridge gateway core, covering:

* `PricingRegistry::calculate_cost`              (crates/core/src/intelligence.rs)
* `SmartRoutingEngine::select_candidates`        (crates/core/src/intelligence.rs)
* `RateLimiter::check_limit` / `check_would_allow` (crates/core/src/rate_limit.rs)
* the `CircuitBreaker` state machine             (crates/api-server/src/state.rs)
* `Request::validate`                            (crates/core/src/request.rs)
* `ApiError` and its HTTP mapping                (crates/api-server/src/error.rs)
* the non-streaming chat pipeline
  `chat_completions` / `create_completion`       (crates/api-server/src/routes/chat.rs)

Rust machine integers are modelled as `Nat`: none of the verified claims
depends on wrap-around, and the counters involved cannot overflow within the
quantities the claims quantify over.  Rust `f64`/`f32` cost and rate values
are modelled as `ℚ`; every concrete divergence below is witnessed on values
where float and rational arithmetic agree exactly.  Side effects (QoS
observations, circuit-breaker reports, audit records) are modelled as
explicit event lists produced by the pipeline functions.
-/

namespace SecureLLM

/-! ### String helpers (Rust `str` operations used by the gateway) -/

/-- Rust `model_pattern.replace("*", "")`: the string with every `'*'`
character removed (the pattern argument is the single character `*`). -/
def remove_stars (s : String) : String :=
  ⟨s.data.filter (fun c => !(c == '*'))⟩

/-- Rust `model.starts_with(p)`. -/
def starts_with (s p : String) : Bool :=
  p.data.isPrefixOf s.data

/-- Rust `model.split_once('/')` on the underlying character list. -/
def split_once_slash : List Char → Option (List Char × List Char)
  | [] => none
  | c :: cs =>
    if c == '/' then some ([], cs)
    else
      match split_once_slash cs with
      | some (a, b) => some (c :: a, b)
      | none => none

/-! ### Pricing registry (`PricingRegistry`, crates/core/src/intelligence.rs) -/

structure PricingTier where
  provider : String
  model_pattern : String
  input_cost_per_1m : ℚ
  output_cost_per_1m : ℚ
  effective_date : String
deriving DecidableEq, Repr

/-- The per-tier match test inside `PricingRegistry::calculate_cost`:
provider must be equal, and the model must equal the pattern exactly or start
with the pattern with all `'*'` removed. -/
def tier_matches (t : PricingTier) (provider model : String) : Bool :=
  t.provider == provider &&
    (model == t.model_pattern || starts_with model (remove_stars t.model_pattern))

/-- `PricingRegistry::calculate_cost` over a snapshot of the tier list:
first matching tier wins, no match costs `0`. -/
def calculate_cost (tiers : List PricingTier) (provider model : String)
    (prompt_tokens completion_tokens : ℕ) : ℚ :=
  match tiers.find? (fun t => tier_matches t provider model) with
  | some t =>
      (prompt_tokens : ℚ) / 1000000 * t.input_cost_per_1m +
        (completion_tokens : ℚ) / 1000000 * t.output_cost_per_1m
  | none => 0

/-- The matching rule in the WORDS OF THE SPEC, for comparison with the code:
the pattern matches when it equals the model exactly, or when it contains a
trailing wildcard and the model starts with the literal prefix before it. -/
def spec_tier_matches (t : PricingTier) (provider model : String) : Bool :=
  t.provider == provider &&
    (model == t.model_pattern ||
      ((match t.model_pattern.data.getLast? with
        | some c => c == '*'
        | none => false) &&
        starts_with model ⟨t.model_pattern.data.dropLast⟩))

/-- `calculate_cost` as described by the spec's matching rule. -/
def spec_calculate_cost (tiers : List PricingTier) (provider model : String)
    (prompt_tokens completion_tokens : ℕ) : ℚ :=
  match tiers.find? (fun t => spec_tier_matches t provider model) with
  | some t =>
      (prompt_tokens : ℚ) / 1000000 * t.input_cost_per_1m +
        (completion_tokens : ℚ) / 1000000 * t.output_cost_per_1m
  | none => 0

/-- Explicit first-match scan over the tier list, using the code's matching
rule.  Written as direct recursion, independently of `List.find?`, so that
the equality with `calculate_cost` is a genuine characterisation of the
code's matching behaviour. -/
def scan_cost (provider model : String) (prompt_tokens completion_tokens : ℕ) :
    List PricingTier → ℚ
  | [] => 0
  | t :: rest =>
    if t.provider == provider &&
        (model == t.model_pattern || starts_with model (remove_stars t.model_pattern)) then
      (prompt_tokens : ℚ) / 1000000 * t.input_cost_per_1m +
        (completion_tokens : ℚ) / 1000000 * t.output_cost_per_1m
    else scan_cost provider model prompt_tokens completion_tokens rest

/-! ### QoS observatory snapshot (`QoSObservatory`, crates/core/src/intelligence.rs)

The routing engine reads the observatory only through `get_metrics`, so a
snapshot is modelled as a function from `(provider, model)` to the optional
`WindowStats` entry. -/

structure WindowStats where
  sample_count : ℕ
  total_latency_ms : ℕ
  error_count : ℕ
  p95_latency_ms : ℕ
deriving DecidableEq, Repr

abbrev QosSnapshot := String → String → Option WindowStats

/-! ### Smart routing engine (`SmartRoutingEngine::select_candidates`) -/

inductive RoutingStrategy where
  | LowestCost
  | LowestLatency
  | HighestReliability
deriving DecidableEq, Repr

abbrev Candidate := String × String

/-- The `retain` predicate of `select_candidates`: keep a candidate unless its
recorded error rate reaches one half.  The float comparison
`error_count / sample_count < 0.5` is `2 * error_count < sample_count` over
the integers; for `sample_count = 0` the Rust comparison is
`NaN < 0.5 = false`, which the integer inequality also yields. -/
def retain_healthy (qos : QosSnapshot) (c : Candidate) : Bool :=
  match qos c.1 c.2 with
  | some stats => decide (2 * stats.error_count < stats.sample_count)
  | none => true

/-- `u64::MAX`, the sentinel for unknown latency in the `LowestLatency` key. -/
def u64_max : ℕ := 2 ^ 64 - 1

/-- Cost of the synthetic 1000/1000-token probe used by `LowestCost`. -/
def probe_cost (pricing : List PricingTier) (c : Candidate) : ℚ :=
  calculate_cost pricing c.1 c.2 1000 1000

/-- The sort key of `select_candidates` for each strategy, as a rational so
all three strategies share one ordering type.  Unknown pairs are `u64::MAX`
for latency and `0` for error rate, exactly as in the code.  For an entry
with `sample_count = 0` the Rust error rate is `NaN` (never produced by
`observe_request`); rational division yields `0` there. -/
def route_key (pricing : List PricingTier) (qos : QosSnapshot)
    (strategy : RoutingStrategy) (c : Candidate) : ℚ :=
  match strategy with
  | .LowestCost => probe_cost pricing c
  | .LowestLatency =>
      ((qos c.1 c.2).map (fun s => (s.p95_latency_ms : ℚ))).getD (u64_max : ℚ)
  | .HighestReliability =>
      ((qos c.1 c.2).map (fun s => (s.error_count : ℚ) / (s.sample_count : ℚ))).getD 0

/-- The comparator of `select_candidates` as a binary relation (`a` sorts no
later than `b`). -/
def route_le (pricing : List PricingTier) (qos : QosSnapshot)
    (strategy : RoutingStrategy) (a b : Candidate) : Prop :=
  route_key pricing qos strategy a ≤ route_key pricing qos strategy b

instance (pricing : List PricingTier) (qos : QosSnapshot) (strategy : RoutingStrategy) :
    DecidableRel (route_le pricing qos strategy) := fun a b => by
  unfold route_le; infer_instance

instance (pricing : List PricingTier) (qos : QosSnapshot) (strategy : RoutingStrategy) :
    IsTotal Candidate (route_le pricing qos strategy) :=
  ⟨fun a b => le_total (route_key pricing qos strategy a) (route_key pricing qos strategy b)⟩

instance (pricing : List PricingTier) (qos : QosSnapshot) (strategy : RoutingStrategy) :
    IsTrans Candidate (route_le pricing qos strategy) :=
  ⟨fun _ _ _ hab hbc => le_trans hab hbc⟩

/-- `SmartRoutingEngine::select_candidates`: drop unhealthy candidates, then
stable-sort by the strategy key.  Rust's `Vec::sort_by` is a stable sort and
the comparator is induced by a total key, so its output coincides with
insertion sort by the same relation. -/
def select_candidates (pricing : List PricingTier) (qos : QosSnapshot)
    (candidates : List Candidate) (strategy : RoutingStrategy) : List Candidate :=
  List.insertionSort (route_le pricing qos strategy)
    (candidates.filter (retain_healthy qos))

/-! ### Rate limiter (`RateLimiter`, crates/core/src/rate_limit.rs)

The per-provider buckets are `governor` direct rate limiters.  A bucket is
modelled by its number of currently available tokens at a fixed instant;
`governor_check` embeds `governor::RateLimiter::check`, which ADMITS AND
CONSUMES one cell when capacity remains (GCRA admission) and rejects
otherwise.  Refill over time is irrelevant to the claims, which compare
calls made at the same instant. -/

inductive RateLimitError where
  | Exceeded (provider : String)
  | NotConfigured (provider : String)
deriving DecidableEq, Repr

/-- `governor::RateLimiter::check` at a fixed instant: consume one token when
one is available. -/
def governor_check (tokens : ℕ) : Bool × ℕ :=
  if 0 < tokens then (true, tokens - 1) else (false, tokens)

/-- The `DashMap` of per-provider limiters, as the map from provider name to
the token state of its bucket (`none` = not configured). -/
abbrev LimiterMap := String → Option ℕ

/-- `RateLimiter::check_limit`: look the provider up, then `limiter.check()`.
Returns the result together with the updated limiter state. -/
def check_limit (limiters : LimiterMap) (provider : String) :
    Except RateLimitError Unit × LimiterMap :=
  match limiters provider with
  | none => (.error (.NotConfigured provider), limiters)
  | some b =>
    let r := governor_check b
    ((if r.1 then .ok () else .error (.Exceeded provider)),
      fun p => if p = provider then some r.2 else limiters p)

/-- `RateLimiter::check_would_allow`: look the provider up, then
`Ok(limiter.check().is_ok())`.  The call goes through the same
`governor_check` as `check_limit`, so it updates the bucket state. -/
def check_would_allow (limiters : LimiterMap) (provider : String) :
    Except RateLimitError Bool × LimiterMap :=
  match limiters provider with
  | none => (.error (.NotConfigured provider), limiters)
  | some b =>
    let r := governor_check b
    (.ok r.1, fun p => if p = provider then some r.2 else limiters p)

/-! ### Circuit breaker (`CircuitBreaker`, crates/api-server/src/state.rs)

`std::time::Instant` values are modelled as natural numbers;
`last_failure.elapsed()` at time `now` is `now - last` (monotone clock), and
`Duration::from_secs(timeout_secs)` is `timeout_secs` in the same unit. -/

structure CircuitBreakerConfig where
  failure_threshold : ℕ
  success_threshold : ℕ
  timeout_secs : ℕ
deriving DecidableEq, Repr

inductive CircuitBreakerState where
  | Closed
  | Open
  | HalfOpen
deriving DecidableEq, Repr

structure CircuitBreaker where
  state : CircuitBreakerState
  failure_count : ℕ
  success_count : ℕ
  last_failure_time : Option ℕ
  config : CircuitBreakerConfig
deriving DecidableEq, Repr

/-- `CircuitBreaker::new`. -/
def CircuitBreaker.new (config : CircuitBreakerConfig) : CircuitBreaker :=
  ⟨.Closed, 0, 0, none, config⟩

/-- `CircuitBreaker::record_success`. -/
def record_success (b : CircuitBreaker) : CircuitBreaker :=
  match b.state with
  | .HalfOpen =>
    let sc := b.success_count + 1
    if b.config.success_threshold ≤ sc then
      { b with state := .Closed, failure_count := 0, success_count := 0 }
    else { b with success_count := sc }
  | .Closed => { b with failure_count := 0 }
  | .Open => b

/-- `CircuitBreaker::record_failure` at time `now`. -/
def record_failure (now : ℕ) (b : CircuitBreaker) : CircuitBreaker :=
  match b.state with
  | .Closed =>
    let fc := b.failure_count + 1
    if b.config.failure_threshold ≤ fc then
      { b with state := .Open, failure_count := fc, last_failure_time := some now }
    else { b with failure_count := fc, last_failure_time := some now }
  | .HalfOpen =>
    { b with state := .Open, failure_count := 1, success_count := 0,
             last_failure_time := some now }
  | .Open => b

/-- `CircuitBreaker::can_attempt` at time `now` (mutating: performs the
timed `Open → HalfOpen` transition). -/
def can_attempt (now : ℕ) (b : CircuitBreaker) : Bool × CircuitBreaker :=
  match b.state with
  | .Closed => (true, b)
  | .Open =>
    match b.last_failure_time with
    | some last =>
      if b.config.timeout_secs ≤ now - last then
        (true, { b with state := .HalfOpen, success_count := 0 })
      else (false, b)
    | none => (true, b)
  | .HalfOpen => (true, b)

/-- One externally visible operation on a breaker, with its clock reading. -/
inductive BreakerEvent where
  | success
  | failure (now : ℕ)
  | attempt (now : ℕ)
deriving DecidableEq, Repr

/-- Apply one breaker operation (the boolean result of `can_attempt` is
discarded; only the state evolution matters for reachability). -/
def breaker_step (b : CircuitBreaker) (e : BreakerEvent) : CircuitBreaker :=
  match e with
  | .success => record_success b
  | .failure t => record_failure t b
  | .attempt t => (can_attempt t b).2

/-- The breaker obtained from `CircuitBreaker::new` by a sequence of
`record_failure` calls at the given times. -/
def failures_from_new (config : CircuitBreakerConfig) (ts : List ℕ) : CircuitBreaker :=
  ts.foldl (fun b t => record_failure t b) (CircuitBreaker.new config)

/-! ### Core request validation (`Request::validate`, crates/core/src/request.rs)

Fields not consulted by any claim (`id`, `metadata`, the provider-specific
`extra` map) are omitted from the embedding; `validate` never reads them. -/

inductive CoreError where
  | Config (msg : String)
  | Provider (provider message : String)
  | Authentication (msg : String)
  | Authorization (msg : String)
  | RateLimit (msg : String)
  | InvalidRequest (msg : String)
  | InvalidResponse (msg : String)
  | Network (msg : String)
  | Serialization (msg : String)
  | Security (msg : String)
  | Audit (msg : String)
  | Sanitization (msg : String)
  | Certificate (msg : String)
  | Crypto (msg : String)
  | SecretAccess (msg : String)
  | Sandbox (msg : String)
  | Timeout (msg : String)
  | ModelNotFound (msg : String)
  | ProviderUnavailable (msg : String)
  | Internal (msg : String)
  | Other (msg : String)
deriving DecidableEq, Repr

inductive MessageRole where
  | System
  | User
  | Assistant
  | Function
deriving DecidableEq, Repr

inductive ContentPart where
  | text (t : String)
  | image_ref (url : String)
deriving DecidableEq, Repr

inductive MessageContent where
  | Text (t : String)
  | Parts (parts : List ContentPart)
deriving DecidableEq, Repr

structure Message where
  role : MessageRole
  content : MessageContent
  name : Option String
deriving DecidableEq, Repr

structure RequestParameters where
  max_tokens : Option ℕ
  temperature : Option ℚ
  top_p : Option ℚ
  top_k : Option ℕ
  stream : Bool
  stop : Option (List String)
deriving DecidableEq, Repr

structure Request where
  provider : String
  model : String
  messages : List Message
  system : Option String
  parameters : RequestParameters
deriving DecidableEq, Repr

/-- `Request::validate`: the checks in source order.  The float range tests
`(0.0..=2.0).contains(&temp)` and `(0.0..=1.0).contains(&top_p)` are the
inclusive-bound comparisons written here (for a `NaN` the Rust test is false,
and `NaN` has no rational counterpart; no claim depends on it). -/
def validate (r : Request) : Except CoreError Unit :=
  if r.provider = "" then .error (.InvalidRequest "Provider cannot be empty")
  else if r.model = "" then .error (.InvalidRequest "Model cannot be empty")
  else if r.messages.isEmpty then
    .error (.InvalidRequest "At least one message is required")
  else if r.parameters.temperature.any (fun temp => !(decide (0 ≤ temp ∧ temp ≤ 2))) then
    .error (.InvalidRequest "Temperature must be between 0.0 and 2.0")
  else if r.parameters.top_p.any (fun tp => !(decide (0 ≤ tp ∧ tp ≤ 1))) then
    .error (.InvalidRequest "Top-p must be between 0.0 and 1.0")
  else if r.parameters.max_tokens.any (fun mt => mt == 0) then
    .error (.InvalidRequest "Max tokens must be greater than 0")
  else .ok ()

/-! ### API-server error type (`ApiError`, crates/api-server/src/error.rs) -/

inductive ApiError where
  | ConfigError (msg : String)
  | DatabaseError (msg : String)
  | ProviderError (msg : String)
  | RateLimitExceeded (msg : String)
  | BadRequest (msg : String)
  | NotFound (msg : String)
  | InternalError (msg : String)
  | CircuitBreakerOpen (msg : String)
  | Timeout (msg : String)
deriving DecidableEq, Repr

/-- The HTTP status chosen by `ApiError::into_response`. -/
def status_code : ApiError → ℕ
  | .ConfigError _ => 500
  | .DatabaseError _ => 500
  | .ProviderError _ => 502
  | .RateLimitExceeded _ => 429
  | .BadRequest _ => 400
  | .NotFound _ => 404
  | .InternalError _ => 500
  | .CircuitBreakerOpen _ => 503
  | .Timeout _ => 504

/-- The `error.type` string chosen by `ApiError::into_response`. -/
def error_type : ApiError → String
  | .ConfigError _ => "config_error"
  | .DatabaseError _ => "database_error"
  | .ProviderError _ => "provider_error"
  | .RateLimitExceeded _ => "rate_limit_exceeded"
  | .BadRequest _ => "bad_request"
  | .NotFound _ => "not_found"
  | .InternalError _ => "internal_error"
  | .CircuitBreakerOpen _ => "circuit_breaker_open"
  | .Timeout _ => "timeout"

/-- `Display for ApiError` (`e.to_string()`), used when logging failures. -/
def api_error_display : ApiError → String
  | .ConfigError msg => "Configuration error: " ++ msg
  | .DatabaseError msg => "Database error: " ++ msg
  | .ProviderError msg => "Provider error: " ++ msg
  | .RateLimitExceeded msg => "Rate limit exceeded: " ++ msg
  | .BadRequest msg => "Bad request: " ++ msg
  | .NotFound msg => "Not found: " ++ msg
  | .InternalError msg => "Internal error: " ++ msg
  | .CircuitBreakerOpen msg => "Circuit breaker open: " ++ msg
  | .Timeout msg => "Timeout: " ++ msg

/-- Rust `Debug` rendering of a `String` payload (quotes added; escape
sequences inside the payload are not modelled — no claim uses a payload
containing a quote or backslash). -/
def string_debug (s : String) : String := "\"" ++ s ++ "\""

/-- Rust `Debug` rendering of a core `Error` value (derived `Debug`). -/
def core_error_debug : CoreError → String
  | .Config s => "Config(" ++ string_debug s ++ ")"
  | .Provider p m =>
      "Provider \x7b provider: " ++ string_debug p ++ ", message: " ++ string_debug m ++ " \x7d"
  | .Authentication s => "Authentication(" ++ string_debug s ++ ")"
  | .Authorization s => "Authorization(" ++ string_debug s ++ ")"
  | .RateLimit s => "RateLimit(" ++ string_debug s ++ ")"
  | .InvalidRequest s => "InvalidRequest(" ++ string_debug s ++ ")"
  | .InvalidResponse s => "InvalidResponse(" ++ string_debug s ++ ")"
  | .Network s => "Network(" ++ string_debug s ++ ")"
  | .Serialization s => "Serialization(" ++ string_debug s ++ ")"
  | .Security s => "Security(" ++ string_debug s ++ ")"
  | .Audit s => "Audit(" ++ string_debug s ++ ")"
  | .Sanitization s => "Sanitization(" ++ string_debug s ++ ")"
  | .Certificate s => "Certificate(" ++ string_debug s ++ ")"
  | .Crypto s => "Crypto(" ++ string_debug s ++ ")"
  | .SecretAccess s => "SecretAccess(" ++ string_debug s ++ ")"
  | .Sandbox s => "Sandbox(" ++ string_debug s ++ ")"
  | .Timeout s => "Timeout(" ++ string_debug s ++ ")"
  | .ModelNotFound s => "ModelNotFound(" ++ string_debug s ++ ")"
  | .ProviderUnavailable s => "ProviderUnavailable(" ++ string_debug s ++ ")"
  | .Internal s => "Internal(" ++ string_debug s ++ ")"
  | .Other s => "Other(" ++ s ++ ")"

/-- Rust `Debug` rendering of `Option<Error>`. -/
def option_debug : Option CoreError → String
  | some e => "Some(" ++ core_error_debug e ++ ")"
  | none => "None"

/-! ### Non-streaming chat pipeline (crates/api-server/src/routes/chat.rs)

`create_completion` iterates the ranked candidates; each attempt calls the
provider adapter and reports the outcome to the QoS observatory and the
circuit breaker.  The registry lookup (`ProviderManager::get_provider`) and
the adapter (`LLMProvider::send_request`) are the pipeline's environment and
are passed in as oracles: `avail p` says whether `get_provider(p)` returns a
handle for this request, and `adapter (p, m)` is the outcome of the single
call the pipeline would make to that candidate.  Durations are not modelled:
no claim mentions them.  The usage part of the adapter response is what the
pipeline consumes downstream. -/

structure CoreUsage where
  prompt_tokens : ℕ
  completion_tokens : ℕ
  total_tokens : ℕ
deriving DecidableEq, Repr

abbrev AvailFn := String → Bool
abbrev AdapterFn := Candidate → Except CoreError CoreUsage

/-- One recorded side effect: a QoS observation (`observe_request`) or a
circuit-breaker report (`ProviderManager::report_result`). -/
inductive Effect where
  | observe (provider model : String) (is_error : Bool)
  | report (provider : String) (success : Bool)
deriving DecidableEq, Repr

/-- One audit record, reduced to the fields the claims mention. -/
inductive AuditRec where
  | requestReceived (provider model : String)
  | responseSent (provider model : String) (cost : ℚ)
  | requestFailed (provider : String) (message : String)
deriving DecidableEq, Repr

structure LoopOut where
  result : Except ApiError CoreUsage
  effects : List Effect
deriving Repr

/-- The fallback loop of `create_completion`: skip candidates whose provider
lookup fails, call the adapter otherwise, report the outcome to QoS and the
breaker, return on the first success, and after exhaustion return
`ApiError::InternalError` with the formatted last error. -/
def run_candidates (avail : AvailFn) (adapter : AdapterFn) :
    List Candidate → Option CoreError → LoopOut
  | [], lastErr =>
    ⟨.error (.InternalError ("All providers failed. Last error: " ++ option_debug lastErr)), []⟩
  | c :: rest, lastErr =>
    if avail c.1 then
      match adapter c with
      | .ok u => ⟨.ok u, [.observe c.1 c.2 false, .report c.1 true]⟩
      | .error e =>
        let r := run_candidates avail adapter rest (some e)
        ⟨r.result, .observe c.1 c.2 true :: .report c.1 false :: r.effects⟩
    else run_candidates avail adapter rest lastErr

/-- The hard-coded `"auto"` candidate list of `create_completion`. -/
def auto_candidates : List Candidate :=
  [("llamacpp", "local-model"), ("deepseek", "deepseek-chat"),
   ("groq", "llama-3.3-70b-versatile"), ("openai", "gpt-4-turbo"),
   ("anthropic", "claude-3-sonnet-20240229")]

/-- Candidate resolution at the top of `create_completion`. -/
def candidates_for (provider_name model_name : String) : List Candidate :=
  if provider_name ≠ "auto" then [(provider_name, model_name)] else auto_candidates

/-- `create_completion`: rank the candidates with the `LowestCost` strategy,
then run the fallback loop with `last_error` initially `None`. -/
def create_completion (pricing : List PricingTier) (qos : QosSnapshot)
    (avail : AvailFn) (adapter : AdapterFn) (provider_name model_name : String) : LoopOut :=
  run_candidates avail adapter
    (select_candidates pricing qos (candidates_for provider_name model_name) .LowestCost)
    none

/-- `parse_model_identifier`: split at the first `'/'`; a bare model name
defaults to the `"deepseek"` provider. -/
def parse_model_identifier (model : String) : String × String :=
  match split_once_slash model.data with
  | some (a, b) => (⟨a⟩, ⟨b⟩)
  | none => ("deepseek", model)

structure PipelineOut where
  result : Except ApiError CoreUsage
  effects : List Effect
  audit : List AuditRec
deriving Repr

/-- The non-streaming branch of `chat_completions`: log `RequestReceived`,
run `create_completion`, then — in the route handler itself — record one
more QoS observation for the PARSED `(provider, model)` pair and emit the
terminal audit record (`ResponseSent` with the computed cost on success,
`RequestFailed` with the rendered error on failure). -/
def chat_completions (pricing : List PricingTier) (qos : QosSnapshot)
    (avail : AvailFn) (adapter : AdapterFn) (req_model : String) : PipelineOut :=
  let pm := parse_model_identifier req_model
  let received := [AuditRec.requestReceived pm.1 pm.2]
  let cc := create_completion pricing qos avail adapter pm.1 pm.2
  match cc.result with
  | .ok u =>
    let cost := calculate_cost pricing pm.1 pm.2 u.prompt_tokens u.completion_tokens
    ⟨.ok u, cc.effects ++ [.observe pm.1 pm.2 false],
      received ++ [.responseSent pm.1 pm.2 cost]⟩
  | .error e =>
    ⟨.error e, cc.effects ++ [.observe pm.1 pm.2 true],
      received ++ [.requestFailed pm.1 (api_error_display e)]⟩

/-- The attempts the fallback loop performs: the candidates whose provider
lookup succeeds, each paired with whether its adapter call succeeded, cut off
after the first success. -/
def attempted (avail : AvailFn) (adapter : AdapterFn) : List Candidate → List (Candidate × Bool)
  | [] => []
  | c :: rest =>
    if avail c.1 then
      match adapter c with
      | .ok _ => [(c, true)]
      | .error _ => (c, false) :: attempted avail adapter rest
    else attempted avail adapter rest

/-- The side effects the loop owes per attempt: one QoS observation with
`is_error` set exactly on failure, then one breaker report with `success`
set exactly on success. -/
def per_attempt_effects : List (Candidate × Bool) → List Effect
  | [] => []
  | a :: rest =>
    Effect.observe a.1.1 a.1.2 (!a.2) :: Effect.report a.1.1 a.2 :: per_attempt_effects rest

/-- The `last_error` value the loop holds after processing the given
candidates (meaningful when the loop exhausts them). -/
def last_err_after (avail : AvailFn) (adapter : AdapterFn) :
    List Candidate → Option CoreError → Option CoreError
  | [], lastErr => lastErr
  | c :: rest, lastErr =>
    if avail c.1 then
      match adapter c with
      | .ok _ => lastErr
      | .error e => last_err_after avail adapter rest (some e)
    else last_err_after avail adapter rest lastErr

/-- Number of QoS observations in an effect list. -/
def observe_count (l : List Effect) : ℕ :=
  l.countP (fun e => match e with | .observe _ _ _ => true | .report _ _ => false)

/-- Number of breaker reports in an effect list. -/
def report_count (l : List Effect) : ℕ :=
  l.countP (fun e => match e with | .observe _ _ _ => false | .report _ _ => true)

/-- Number of `RequestFailed` records in an audit list. -/
def request_failed_count (l : List AuditRec) : ℕ :=
  l.countP (fun a => match a with | .requestFailed _ _ => true | _ => false)

/-! ## Helper lemmas -/

theorem calculate_cost_nil (provider model : String) (a b : ℕ) :
    calculate_cost [] provider model a b = 0 := rfl

theorem calculate_cost_cons (t : PricingTier) (ts : List PricingTier)
    (provider model : String) (a b : ℕ) :
    calculate_cost (t :: ts) provider model a b =
      if tier_matches t provider model then
        (a : ℚ) / 1000000 * t.input_cost_per_1m + (b : ℚ) / 1000000 * t.output_cost_per_1m
      else calculate_cost ts provider model a b := by
  cases h : tier_matches t provider model <;>
    simp [calculate_cost, List.find?, h]

theorem spec_calculate_cost_nil (provider model : String) (a b : ℕ) :
    spec_calculate_cost [] provider model a b = 0 := rfl

theorem spec_calculate_cost_cons (t : PricingTier) (ts : List PricingTier)
    (provider model : String) (a b : ℕ) :
    spec_calculate_cost (t :: ts) provider model a b =
      if spec_tier_matches t provider model then
        (a : ℚ) / 1000000 * t.input_cost_per_1m + (b : ℚ) / 1000000 * t.output_cost_per_1m
      else spec_calculate_cost ts provider model a b := by
  cases h : spec_tier_matches t provider model <;>
    simp [spec_calculate_cost, List.find?, h]

theorem scan_cost_cons (t : PricingTier) (ts : List PricingTier)
    (provider model : String) (a b : ℕ) :
    scan_cost provider model a b (t :: ts) =
      if tier_matches t provider model then
        (a : ℚ) / 1000000 * t.input_cost_per_1m + (b : ℚ) / 1000000 * t.output_cost_per_1m
      else scan_cost provider model a b ts := rfl

/-! ## C4 — pricing lookup -/

/-- C4 counterexample: with the single tier `(provider "p", pattern "m")` —
no wildcard anywhere — the code still prefix-matches the model `"mx"` and
charges it, while the spec's exact-or-trailing-wildcard rule yields no match
and cost `0`. -/
theorem calculate_cost_prefix_without_wildcard :
    calculate_cost [⟨"p", "m", 1000000, 0, "2025-01-01"⟩] "p" "mx" 1 0 = 1 ∧
    spec_calculate_cost [⟨"p", "m", 1000000, 0, "2025-01-01"⟩] "p" "mx" 1 0 = 0 := by
  constructor
  · norm_num +decide [calculate_cost_cons, calculate_cost_nil]
  · norm_num +decide [spec_calculate_cost_cons, spec_calculate_cost_nil]

/-- C4 (amended): `calculate_cost` returns the token-linear cost
`(prompt/1e6)·input + (completion/1e6)·output` of the FIRST tier whose
provider equals the given provider and whose model either equals the
pattern exactly or starts with the pattern with all `'*'` characters
removed (not only trailing wildcards); with no such tier it returns `0`. -/
theorem calculate_cost_eq_scan (tiers : List PricingTier) (provider model : String)
    (a b : ℕ) :
    calculate_cost tiers provider model a b = scan_cost provider model a b tiers := by
  induction tiers with
  | nil => rfl
  | cons t ts ih =>
    rw [calculate_cost_cons, scan_cost_cons, ih]

/-! ## C5 — rate limiter pre-flight check -/

/-- C5: the doc comment on `check_would_allow` promises a check "without
consuming token", but the implementation calls `governor`'s consuming
`check()`.  On a bucket holding exactly one token, `check_would_allow`
answers `true`, drains the bucket to zero, and thereby makes the immediately
following `check_limit` fail, although `check_limit` on the untouched bucket
would have succeeded. -/
theorem check_would_allow_consumes_token :
    (check_would_allow (fun p => if p = "deepseek" then some 1 else none) "deepseek").1
      = .ok true ∧
    (check_would_allow (fun p => if p = "deepseek" then some 1 else none) "deepseek").2
      "deepseek" = some 0 ∧
    (check_limit
        ((check_would_allow (fun p => if p = "deepseek" then some 1 else none) "deepseek").2)
        "deepseek").1 = .error (.Exceeded "deepseek") ∧
    (check_limit (fun p => if p = "deepseek" then some 1 else none) "deepseek").1 = .ok () :=
  ⟨rfl, rfl, rfl, rfl⟩

/-! ## C8 — request validation -/

/-- C8: `Request::validate` succeeds exactly when the provider and model are
non-empty, at least one message is present, temperature (when set) lies in
`[0, 2]`, top_p (when set) lies in `[0, 1]`, and max_tokens (when set) is
positive; every failure is an `InvalidRequest` error. -/
theorem validate_ok_iff (r : Request) :
    (validate r = .ok () ↔
      (r.provider ≠ "" ∧ r.model ≠ "" ∧ r.messages ≠ [] ∧
        (∀ temp, r.parameters.temperature = some temp → 0 ≤ temp ∧ temp ≤ 2) ∧
        (∀ tp, r.parameters.top_p = some tp → 0 ≤ tp ∧ tp ≤ 1) ∧
        (∀ mt, r.parameters.max_tokens = some mt → 0 < mt))) ∧
    (∀ e, validate r = .error e → ∃ msg, e = CoreError.InvalidRequest msg) := by
  constructor
  · constructor
    · intro h
      unfold validate at h
      split_ifs at h with h1 h2 h3 h4 h5 h6
      refine ⟨h1, h2, by simpa using h3, ?_, ?_, ?_⟩
      · intro temp ht
        rw [ht] at h4
        simpa using h4
      · intro tp htp
        rw [htp] at h5
        simpa using h5
      · intro mt hmt
        rw [hmt] at h6
        simpa [Nat.pos_iff_ne_zero] using h6
    · rintro ⟨h1, h2, h3, h4, h5, h6⟩
      unfold validate
      rw [if_neg h1, if_neg h2, if_neg (by simpa using h3), if_neg ?_, if_neg ?_, if_neg ?_]
      · cases hmt : r.parameters.max_tokens with
        | none => simp
        | some mt => simp [Nat.pos_iff_ne_zero.mp (h6 mt hmt)]
      · cases htp : r.parameters.top_p with
        | none => simp
        | some tp => simp [h5 tp htp]
      · cases ht : r.parameters.temperature with
        | none => simp
        | some temp => simp [h4 temp ht]
  · intro e he
    unfold validate at he
    split_ifs at he <;> simp_all <;> exact ⟨_, he.symm⟩

/-- C8 witness: a concrete fully valid request passes `validate`. -/
theorem validate_ok_iff_witness :
    validate
      ⟨"openai", "gpt-4", [⟨.User, .Text "Hello", none⟩], none,
        ⟨some 500, some (7/10), none, none, false, none⟩⟩ = .ok () := by
  refine (validate_ok_iff _).1.mpr ⟨by decide, by decide, by decide, ?_, ?_, ?_⟩
  · intro temp ht
    obtain rfl : (7 / 10 : ℚ) = temp := by simpa using ht
    norm_num
  · intro tp htp
    simp at htp
  · intro mt hmt
    obtain rfl : (500 : ℕ) = mt := by simpa using hmt
    norm_num

/-! ## Circuit-breaker helper lemmas -/

theorem record_failure_config (now : ℕ) (b : CircuitBreaker) :
    (record_failure now b).config = b.config := by
  rcases b with ⟨st, fc, sc, lt, cfg⟩
  cases st <;> simp [record_failure] <;> split <;> rfl

theorem record_failure_of_open (now : ℕ) (b : CircuitBreaker) (h : b.state = .Open) :
    record_failure now b = b := by
  rcases b with ⟨st, fc, sc, lt, cfg⟩
  cases st <;> simp_all [record_failure]

theorem failures_foldl_of_open (ts : List ℕ) (b : CircuitBreaker) (h : b.state = .Open) :
    ts.foldl (fun b t => record_failure t b) b = b := by
  induction ts with
  | nil => rfl
  | cons t ts ih => simp [record_failure_of_open t b h, ih]

theorem failures_foldl_config (ts : List ℕ) (b : CircuitBreaker) :
    (ts.foldl (fun b t => record_failure t b) b).config = b.config := by
  induction ts generalizing b with
  | nil => rfl
  | cons t ts ih => simp [ih, record_failure_config]

theorem failures_foldl_open (ts : List ℕ) (b : CircuitBreaker)
    (hclosed : b.state = .Closed)
    (hcount : b.config.failure_threshold ≤ b.failure_count + ts.length)
    (hne : 1 ≤ ts.length) :
    (ts.foldl (fun b t => record_failure t b) b).state = .Open := by
  induction ts generalizing b with
  | nil => exact absurd hne (by simp)
  | cons t ts ih =>
    rcases b with ⟨st, fc, sc, lt, cfg⟩
    simp only [CircuitBreaker.state] at hclosed
    subst hclosed
    simp only [List.foldl_cons]
    by_cases hth : cfg.failure_threshold ≤ fc + 1
    · have hopen : (record_failure t ⟨.Closed, fc, sc, lt, cfg⟩).state = .Open := by
        simp [record_failure, hth]
      rw [failures_foldl_of_open ts _ hopen]
      exact hopen
    · have hrec : record_failure t ⟨.Closed, fc, sc, lt, cfg⟩
          = ⟨.Closed, fc + 1, sc, some t, cfg⟩ := by
        simp [record_failure, hth]
      rw [hrec]
      refine ih _ rfl ?_ ?_
      · simp only [List.length_cons] at hcount
        simp only [CircuitBreaker.failure_count, CircuitBreaker.config]
        omega
      · simp only [List.length_cons] at hcount
        simp only [CircuitBreaker.failure_count, CircuitBreaker.config] at hth ⊢
        omega

theorem can_attempt_open_blocked (now : ℕ) (b : CircuitBreaker) (last : ℕ)
    (hs : b.state = .Open) (hl : b.last_failure_time = some last)
    (ht : now - last < b.config.timeout_secs) :
    (can_attempt now b).1 = false := by
  rcases b with ⟨st, fc, sc, lt, cfg⟩
  simp only [CircuitBreaker.state] at hs
  simp only [CircuitBreaker.last_failure_time] at hl
  simp only [CircuitBreaker.config] at ht
  subst hs
  subst hl
  simp [can_attempt, Nat.not_le.mpr ht]

/-! ## C6 — breaker opens after threshold failures -/

/-- C6 counterexample: the claim quantifies over EVERY breaker, but a breaker
configured with `failure_threshold = 0` starts Closed and a sequence of
`failure_threshold = 0` (that is, zero) `record_failure` calls leaves it
Closed, not Open. -/
theorem breaker_zero_threshold_not_open :
    ([] : List ℕ).length = (CircuitBreakerConfig.mk 0 2 60).failure_threshold ∧
    (failures_from_new ⟨0, 2, 60⟩ []).state = CircuitBreakerState.Closed ∧
    CircuitBreakerState.Closed ≠ CircuitBreakerState.Open :=
  ⟨rfl, rfl, by decide⟩

/-- C6 (amended): for every breaker configuration with `failure_threshold ≥ 1`,
starting from `CircuitBreaker::new` (Closed, `failure_count = 0`), a sequence
of `failure_threshold` consecutive `record_failure` calls leaves the breaker
Open, and while it is Open every `can_attempt` call made strictly before the
configured timeout has elapsed since `last_failure_time` returns `false`. -/
theorem breaker_opens_after_threshold_failures (cfg : CircuitBreakerConfig)
    (ts : List ℕ) (now : ℕ)
    (hlen : ts.length = cfg.failure_threshold) (hpos : 1 ≤ cfg.failure_threshold) :
    (failures_from_new cfg ts).state = .Open ∧
    ∀ last, (failures_from_new cfg ts).last_failure_time = some last →
      now - last < cfg.timeout_secs →
      (can_attempt now (failures_from_new cfg ts)).1 = false := by
  have hopen : (failures_from_new cfg ts).state = .Open := by
    refine failures_foldl_open ts (CircuitBreaker.new cfg) rfl ?_ ?_
    · simp [CircuitBreaker.new, hlen]
    · omega
  refine ⟨hopen, fun last hl ht => ?_⟩
  refine can_attempt_open_blocked now _ last hopen hl ?_
  have hcfg : (failures_from_new cfg ts).config = cfg :=
    failures_foldl_config ts (CircuitBreaker.new cfg)
  rw [hcfg]
  exact ht

/-- C6 witness: threshold 2, two failures at times 3 and 4; at time 10 the
breaker (timeout 60) is Open and rejects the attempt. -/
theorem breaker_opens_after_threshold_failures_witness :
    (failures_from_new ⟨2, 2, 60⟩ [3, 4]).state = .Open ∧
    (can_attempt 10 (failures_from_new ⟨2, 2, 60⟩ [3, 4])).1 = false := by
  have h := breaker_opens_after_threshold_failures ⟨2, 2, 60⟩ [3, 4] 10 (by decide) (by decide)
  exact ⟨h.1, h.2 4 (by decide) (by decide)⟩

/-! ## C10 — Open implies a recorded failure time -/

theorem breaker_step_preserves_inv (b : CircuitBreaker) (e : BreakerEvent)
    (hb : b.state = .Open → b.last_failure_time ≠ none) :
    (breaker_step b e).state = .Open → (breaker_step b e).last_failure_time ≠ none := by
  rcases b with ⟨st, fc, sc, lt, cfg⟩
  cases e with
  | success =>
    cases st <;> simp_all [breaker_step, record_success] <;> split <;> simp
  | failure t =>
    cases st <;> simp_all [breaker_step, record_failure] <;> split <;> simp
  | attempt t =>
    cases st with
    | Closed => simp [breaker_step, can_attempt]
    | HalfOpen => simp [breaker_step, can_attempt]
    | Open =>
      cases lt with
      | none => simp_all [breaker_step, can_attempt]
      | some last =>
        simp only [breaker_step, can_attempt]
        split <;> simp

/-- C10: in every breaker state reachable from `CircuitBreaker::new` by any
sequence of `record_success` / `record_failure` / `can_attempt` operations,
state Open implies `last_failure_time` is set; hence the `can_attempt` branch
admitting a call while Open without a recorded failure time is unreachable. -/
theorem breaker_open_has_failure_time (cfg : CircuitBreakerConfig)
    (evs : List BreakerEvent)
    (h : (evs.foldl breaker_step (CircuitBreaker.new cfg)).state = .Open) :
    (evs.foldl breaker_step (CircuitBreaker.new cfg)).last_failure_time ≠ none := by
  suffices hgen : ∀ (l : List BreakerEvent) (b : CircuitBreaker),
      (b.state = .Open → b.last_failure_time ≠ none) →
      ((l.foldl breaker_step b).state = .Open → (l.foldl breaker_step b).last_failure_time ≠ none) by
    exact hgen evs (CircuitBreaker.new cfg) (by simp [CircuitBreaker.new]) h
  intro l
  induction l with
  | nil => intro b hb; exact hb
  | cons e rest ih =>
    intro b hb
    exact ih (breaker_step b e) (breaker_step_preserves_inv b e hb)

/-- C10 witness: one failure at time 5 from a fresh threshold-1 breaker puts
it in Open, and indeed the failure time is recorded. -/
theorem breaker_open_has_failure_time_witness :
    (([BreakerEvent.failure 5]).foldl breaker_step
        (CircuitBreaker.new ⟨1, 1, 60⟩)).last_failure_time ≠ none :=
  breaker_open_has_failure_time ⟨1, 1, 60⟩ [BreakerEvent.failure 5] (by decide)

/-! ## C7 — routing idempotence -/

/-- C7: under a fixed pricing and QoS snapshot, `select_candidates` is
idempotent: re-ranking its own output returns it unchanged. -/
theorem select_candidates_idempotent (pricing : List PricingTier) (qos : QosSnapshot)
    (candidates : List Candidate) (strategy : RoutingStrategy) :
    select_candidates pricing qos (select_candidates pricing qos candidates strategy) strategy
      = select_candidates pricing qos candidates strategy := by
  unfold select_candidates
  have hfilter : (List.insertionSort (route_le pricing qos strategy)
        (candidates.filter (retain_healthy qos))).filter (retain_healthy qos)
      = List.insertionSort (route_le pricing qos strategy)
          (candidates.filter (retain_healthy qos)) := by
    apply List.filter_eq_self.mpr
    intro a ha
    exact List.of_mem_filter
      ((List.perm_insertionSort (route_le pricing qos strategy)
          (candidates.filter (retain_healthy qos))).mem_iff.mp ha)
  rw [hfilter]
  exact List.Sorted.insertionSort_eq
    (List.sorted_insertionSort (route_le pricing qos strategy) _)

/-! ## C9 — unpriced candidates rank first under LowestCost -/

/-- C9: under `LowestCost`, a candidate matching no pricing tier is costed `0`
for the synthetic 1000/1000-token probe, and in the ranked output it appears
strictly before every candidate with positive probe cost. -/
theorem lowest_cost_ranks_unpriced_first (pricing : List PricingTier) (qos : QosSnapshot)
    (candidates out : List Candidate) (i j : ℕ)
    (hout : out = select_candidates pricing qos candidates .LowestCost)
    (hi : i < out.length) (hj : j < out.length)
    (hu : ∀ t ∈ pricing, tier_matches t (out.get ⟨i, hi⟩).1 (out.get ⟨i, hi⟩).2 = false)
    (hv : 0 < probe_cost pricing (out.get ⟨j, hj⟩)) :
    probe_cost pricing (out.get ⟨i, hi⟩) = 0 ∧ i < j := by
  have hcost0 : probe_cost pricing (out.get ⟨i, hi⟩) = 0 := by
    unfold probe_cost calculate_cost
    rw [List.find?_eq_none.mpr (fun t ht => by
      simp only [List.get_eq_getElem] at hu
      simp [hu t ht])]
  refine ⟨hcost0, ?_⟩
  have hsorted : List.Sorted (route_le pricing qos .LowestCost) out := by
    rw [hout]
    exact List.sorted_insertionSort (route_le pricing qos .LowestCost) _
  by_contra hij
  push_neg at hij
  rcases Nat.lt_or_ge j i with hji | hij2
  · have hrel := hsorted.rel_get_of_lt (show (⟨j, hj⟩ : Fin out.length) < ⟨i, hi⟩ from hji)
    have : probe_cost pricing (out.get ⟨j, hj⟩) ≤ probe_cost pricing (out.get ⟨i, hi⟩) := hrel
    rw [hcost0] at this
    exact absurd (lt_of_lt_of_le hv this) (lt_irrefl 0)
  · have : i = j := le_antisymm hij2 hij
    subst this
    rw [hcost0] at hv
    exact absurd hv (lt_irrefl 0)

/-- C9 witness: one tier pricing `("p", "m")`; the unpriced candidate
`("q", "x")` is ranked ahead of the positively priced `("p", "m")`. -/
theorem lowest_cost_ranks_unpriced_first_witness :
    probe_cost [⟨"p", "m", 1, 1, "2025-01-01"⟩] ("q", "x") = 0 ∧ (0 : ℕ) < 1 := by
  have hout : ([("q", "x"), ("p", "m")] : List Candidate)
      = select_candidates [⟨"p", "m", 1, 1, "2025-01-01"⟩] (fun _ _ => none)
          [("p", "m"), ("q", "x")] .LowestCost := by
    norm_num +decide [select_candidates, retain_healthy, route_le, route_key, probe_cost,
      calculate_cost_cons, calculate_cost_nil,
      List.insertionSort, List.orderedInsert, List.filter]
  have h := lowest_cost_ranks_unpriced_first [⟨"p", "m", 1, 1, "2025-01-01"⟩]
    (fun _ _ => none) [("p", "m"), ("q", "x")] [("q", "x"), ("p", "m")] 0 1 hout
    (by decide) (by decide) (by decide)
    (by norm_num +decide [probe_cost, calculate_cost_cons, calculate_cost_nil])
  exact ⟨h.1, h.2⟩

/-! ## Pipeline helper lemmas -/

theorem run_candidates_effects (avail : AvailFn) (adapter : AdapterFn) :
    ∀ (cs : List Candidate) (lastErr : Option CoreError),
      (run_candidates avail adapter cs lastErr).effects
        = per_attempt_effects (attempted avail adapter cs) := by
  intro cs
  induction cs with
  | nil => intro lastErr; rfl
  | cons c rest ih =>
    intro lastErr
    cases h : avail c.1 with
    | false => simp [run_candidates, attempted, h, ih]
    | true =>
      cases hA : adapter c with
      | ok u => simp [run_candidates, attempted, h, hA, per_attempt_effects]
      | error e => simp [run_candidates, attempted, h, hA, per_attempt_effects, ih]

theorem run_candidates_result_of_error (avail : AvailFn) (adapter : AdapterFn) :
    ∀ (cs : List Candidate) (lastErr : Option CoreError) (e : ApiError),
      (run_candidates avail adapter cs lastErr).result = .error e →
      e = .InternalError ("All providers failed. Last error: "
            ++ option_debug (last_err_after avail adapter cs lastErr)) := by
  intro cs
  induction cs with
  | nil =>
    intro lastErr e he
    simp [run_candidates, last_err_after] at he
    exact he.symm
  | cons c rest ih =>
    intro lastErr e he
    cases h : avail c.1 with
    | false =>
      simp only [run_candidates, h, Bool.false_eq_true, if_false] at he
      simpa [last_err_after, h] using ih lastErr e he
    | true =>
      cases hA : adapter c with
      | ok u => simp [run_candidates, h, hA] at he
      | error e2 =>
        simp only [run_candidates, h, hA, if_true] at he
        simpa [last_err_after, h, hA] using ih (some e2) e he

/-! ## C1 — side effects per adapter attempt -/

/-- C1 counterexample: for the request `"p/m"` with one available provider
whose single adapter call SUCCEEDS, the pipeline records TWO QoS observations
(one in the fallback loop of `create_completion` and a second one in the
`chat_completions` route handler) although exactly one adapter attempt was
made; the breaker report is recorded once. -/
theorem chat_pipeline_double_observation :
    observe_count (chat_completions [] (fun _ _ => none) (fun _ => true)
        (fun _ => .ok ⟨10, 5, 15⟩) "p/m").effects = 2 ∧
    (attempted (fun _ => true) (fun _ => .ok ⟨10, 5, 15⟩)
        (select_candidates [] (fun _ _ => none) (candidates_for "p" "m") .LowestCost)).length
      = 1 ∧
    report_count (chat_completions [] (fun _ _ => none) (fun _ => true)
        (fun _ => .ok ⟨10, 5, 15⟩) "p/m").effects = 1 := by
  refine ⟨?_, ?_, ?_⟩ <;> rfl

/-- C1 (amended): per adapter attempt the fallback loop records exactly one
QoS observation with `is_error` true iff the adapter returned Err and exactly
one breaker report with `success` true iff it returned Ok, in that order; in
addition the route handler records exactly one extra QoS observation per
terminated request, against the PARSED `(provider, model)` pair, with
`is_error` true iff the pipeline as a whole failed. -/
theorem chat_pipeline_effects_per_attempt (pricing : List PricingTier) (qos : QosSnapshot)
    (avail : AvailFn) (adapter : AdapterFn) (req_model : String) :
    (chat_completions pricing qos avail adapter req_model).effects
      = per_attempt_effects (attempted avail adapter
          (select_candidates pricing qos
            (candidates_for (parse_model_identifier req_model).1
              (parse_model_identifier req_model).2) .LowestCost))
        ++ [Effect.observe (parse_model_identifier req_model).1
              (parse_model_identifier req_model).2
              (!(chat_completions pricing qos avail adapter req_model).result.isOk)] := by
  unfold chat_completions create_completion
  cases hr : (run_candidates avail adapter
      (select_candidates pricing qos
        (candidates_for (parse_model_identifier req_model).1
          (parse_model_identifier req_model).2) .LowestCost) none).result with
  | ok u => simp [hr, run_candidates_effects, Except.isOk, Except.toBool]
  | error e => simp [hr, run_candidates_effects, Except.isOk, Except.toBool]

/-! ## C2 — the RequestFailed audit record -/

/-- C2 counterexample: request `"p/m"` whose only candidate is skipped
because the provider lookup fails (breaker open): NO candidate is attempted,
yet the emitted `RequestFailed` record carries provider `"p"` — the provider
parsed from the request — and not `"<none>"` as the claim requires. -/
theorem request_failed_provider_not_none :
    attempted (fun _ => false) (fun _ => .error (.Network "boom"))
        (select_candidates [] (fun _ _ => none) (candidates_for "p" "m") .LowestCost) = [] ∧
    (chat_completions [] (fun _ _ => none) (fun _ => false)
        (fun _ => .error (.Network "boom")) "p/m").audit
      = [AuditRec.requestReceived "p" "m",
         AuditRec.requestFailed "p"
           "Internal error: All providers failed. Last error: None"] ∧
    ("p" : String) ≠ "<none>" := by
  refine ⟨rfl, rfl, by decide⟩

/-- C2 (amended): every failed non-streaming pipeline execution emits exactly
one `RequestFailed` audit record, and its provider field is the provider
parsed from the request's model string (`"deepseek"` for a bare model name,
the segment before the first `'/'` otherwise, including the literal
`"auto"`) — regardless of which candidate, if any, was attempted last. -/
theorem request_failed_audit_provider (pricing : List PricingTier) (qos : QosSnapshot)
    (avail : AvailFn) (adapter : AdapterFn) (req_model : String) (e : ApiError)
    (h : (chat_completions pricing qos avail adapter req_model).result = .error e) :
    (chat_completions pricing qos avail adapter req_model).audit
      = [AuditRec.requestReceived (parse_model_identifier req_model).1
           (parse_model_identifier req_model).2,
         AuditRec.requestFailed (parse_model_identifier req_model).1
           (api_error_display e)] := by
  unfold chat_completions at h ⊢
  cases hr : (create_completion pricing qos avail adapter
      (parse_model_identifier req_model).1 (parse_model_identifier req_model).2).result with
  | ok u => simp [hr] at h
  | error e2 =>
    simp only [hr] at h ⊢
    simp only [Except.error.injEq] at h
    subst h
    rfl

/-- C2 witness: the failing `"p/m"` run emits exactly the two audit records,
the second being the `RequestFailed` one for provider `"p"`. -/
theorem request_failed_audit_provider_witness :
    (chat_completions [] (fun _ _ => none) (fun _ => false)
        (fun _ => .error (.Network "boom")) "p/m").audit
      = [AuditRec.requestReceived "p" "m",
         AuditRec.requestFailed "p"
           (api_error_display (.InternalError
             "All providers failed. Last error: None"))] :=
  request_failed_audit_provider [] (fun _ _ => none) (fun _ => false)
    (fun _ => .error (.Network "boom")) "p/m"
    (.InternalError "All providers failed. Last error: None") rfl

/-! ## C3 — the terminal error after exhausting all candidates -/

/-- C3 counterexample: with all candidates failing, the non-streaming
pipeline returns `ApiError::InternalError` — not a dedicated
all-providers-failed error — and `ApiError::into_response` maps it to HTTP
500, not the 502 the claim requires. -/
theorem all_providers_failed_status_500 :
    (chat_completions [] (fun _ _ => none) (fun _ => true)
        (fun _ => .error (.Network "boom")) "p/m").result
      = .error (.InternalError
          "All providers failed. Last error: Some(Network(\"boom\"))") ∧
    status_code (.InternalError
        "All providers failed. Last error: Some(Network(\"boom\"))") = 500 ∧
    (500 : ℕ) ≠ 502 := by
  refine ⟨rfl, rfl, by decide⟩

/-- C3 (amended): when the pipeline terminates in failure, the error is
`ApiError::InternalError` whose message embeds the Debug rendering of the
last underlying cause (`None` when no candidate was attempted), and
`into_response` surfaces it with HTTP status 500 and error type
`"internal_error"`. -/
theorem exhausted_pipeline_internal_error (pricing : List PricingTier) (qos : QosSnapshot)
    (avail : AvailFn) (adapter : AdapterFn) (req_model : String) (e : ApiError)
    (h : (chat_completions pricing qos avail adapter req_model).result = .error e) :
    e = .InternalError ("All providers failed. Last error: "
          ++ option_debug (last_err_after avail adapter
               (select_candidates pricing qos
                 (candidates_for (parse_model_identifier req_model).1
                   (parse_model_identifier req_model).2) .LowestCost) none)) ∧
    status_code e = 500 ∧ error_type e = "internal_error" := by
  unfold chat_completions create_completion at h
  cases hr : (run_candidates avail adapter
      (select_candidates pricing qos
        (candidates_for (parse_model_identifier req_model).1
          (parse_model_identifier req_model).2) .LowestCost) none).result with
  | ok u => simp [hr] at h
  | error e2 =>
    simp only [hr, Except.error.injEq] at h
    subst h
    have he2 := run_candidates_result_of_error avail adapter _ none e2 hr
    subst he2
    exact ⟨rfl, rfl, rfl⟩

/-- C3 witness: one available candidate failing with a network error; the
terminal error carries the rendered cause and maps to status 500. -/
theorem exhausted_pipeline_internal_error_witness :
    (ApiError.InternalError
        "All providers failed. Last error: Some(Network(\"boom\"))")
      = .InternalError ("All providers failed. Last error: "
          ++ option_debug (last_err_after (fun _ => true)
               (fun _ => .error (.Network "boom"))
               (select_candidates [] (fun _ _ => none) (candidates_for "p" "m") .LowestCost)
               none)) ∧
    status_code (.InternalError
        "All providers failed. Last error: Some(Network(\"boom\"))") = 500 ∧
    error_type (.InternalError
        "All providers failed. Last error: Some(Network(\"boom\"))")
      = "internal_error" :=
  exhausted_pipeline_internal_error [] (fun _ _ => none) (fun _ => true)
    (fun _ => .error (.Network "boom")) "p/m"
    (.InternalError "All providers failed. Last error: Some(Network(\"boom\"))") rfl

end SecureLLM
